import Mathlib

/-
  Formal model of the AurumFinanceAI core: the bank-file preprocessing
  pipeline (detection, enrichment, combination, transformation,
  orchestration), the portfolio metrics engine (Modified Dietz returns),
  the dashboard cache aggregator, and the frontend error normalizer.

  Numeric values are modelled as rationals (the sources use Decimal and
  float); dates inside a return period are modelled as rational time
  coordinates, which is all the Modified Dietz weights depend on.
-/

namespace Aurum

/-! ## Frontend error normalizer (src/unnamed/part_008) -/

/-- A JavaScript runtime value, as far as handleApiError inspects one: a
primitive, null, undefined, or an object.  An object carries its named
fields, whether it is an Error instance, and (for Error instances) its
message.  Translated from the dynamic behavior of the TypeScript in
src/unnamed/part_008. -/
inductive JSVal where
  | vstr (s : String)
  | vnum (n : Int)
  | vbool (b : Bool)
  | vnull
  | vundefined
  | vobj (fields : List (String × JSVal)) (isErrorInstance : Bool) (errorMessage : String)

/-- JavaScript member access v.name: throws TypeError on null or
undefined, yields the field on objects (undefined when absent), and
yields undefined on primitives. -/
def getField (v : JSVal) (name : String) : Except String JSVal :=
  match v with
  | JSVal.vnull => Except.error ("TypeError")
  | JSVal.vundefined => Except.error ("TypeError")
  | JSVal.vobj fs _ _ => Except.ok ((fs.lookup name).getD JSVal.vundefined)
  | _ => Except.ok JSVal.vundefined

/-- JavaScript optional chaining v?.name: undefined when v is null or
undefined, otherwise plain member access. -/
def optChain (v : JSVal) (name : String) : Except String JSVal :=
  match v with
  | JSVal.vnull => Except.ok JSVal.vundefined
  | JSVal.vundefined => Except.ok JSVal.vundefined
  | _ => getField v name

/-- JavaScript truthiness. -/
def truthy (v : JSVal) : Bool :=
  match v with
  | JSVal.vstr s => !(s == "")
  | JSVal.vnum n => !(n == 0)
  | JSVal.vbool b => b
  | JSVal.vnull => false
  | JSVal.vundefined => false
  | JSVal.vobj _ _ _ => true

/-- JavaScript a || b. -/
def jsOr (a b : JSVal) : JSVal := if truthy a then a else b

/-- The ApiError value constructed by the frontend error module: status,
message and optional payload, kept as runtime values since the
TypeScript casts are unchecked. -/
structure ApiError where
  status : JSVal
  message : JSVal
  data : JSVal

/-- handleApiError from src/unnamed/part_008, translated branch by
branch: response branch, request branch, Error-instance branch, default
branch.  The Except layer records that member access on a null or
undefined response value throws a TypeError at runtime. -/
def handleApiError (e : JSVal) : Except String ApiError :=
  match e with
  | JSVal.vobj fs isErr msg =>
    match fs.lookup ("response") with
    | some resp => do
      let status ← getField resp ("status")
      let data ← getField resp ("data")
      let m1 ← optChain data ("message")
      let m2 ← optChain data ("error")
      pure ⟨status, jsOr m1 (jsOr m2 (JSVal.vstr ("API Error"))), data⟩
    | none =>
      match fs.lookup ("request") with
      | some _ =>
        pure ⟨JSVal.vnum 0, JSVal.vstr ("Network Error - Unable to connect to server"),
              JSVal.vundefined⟩
      | none =>
        if isErr then pure ⟨JSVal.vnum 0, JSVal.vstr msg, JSVal.vundefined⟩
        else pure ⟨JSVal.vnum 0, JSVal.vstr ("Unknown Error"), JSVal.vundefined⟩
  | _ => pure ⟨JSVal.vnum 0, JSVal.vstr ("Unknown Error"), JSVal.vundefined⟩

/-- Total member access used by the specification-side description: the
field on objects, undefined otherwise. -/
def specField (v : JSVal) (name : String) : JSVal :=
  match v with
  | JSVal.vobj fs _ _ => (fs.lookup name).getD JSVal.vundefined
  | _ => JSVal.vundefined

/-- Specification-side restatement of the amended claim about
handleApiError, written as explicit case analysis: the TypeError cases
(response field present with a null or undefined value) are spelled out,
every other input yields an ApiError with the claimed status and the
message fallback chain. -/
def handleApiErrorSpec (e : JSVal) : Except String ApiError :=
  match e with
  | JSVal.vobj fs isErr msg =>
    match fs.lookup ("response") with
    | some JSVal.vnull => Except.error ("TypeError")
    | some JSVal.vundefined => Except.error ("TypeError")
    | some resp =>
      let status := specField resp ("status")
      let data := specField resp ("data")
      let m := jsOr (specField data ("message"))
                 (jsOr (specField data ("error")) (JSVal.vstr ("API Error")))
      Except.ok ⟨status, m, data⟩
    | none =>
      match fs.lookup ("request") with
      | some _ =>
        Except.ok ⟨JSVal.vnum 0, JSVal.vstr ("Network Error - Unable to connect to server"),
                   JSVal.vundefined⟩
      | none =>
        if isErr then Except.ok ⟨JSVal.vnum 0, JSVal.vstr msg, JSVal.vundefined⟩
        else Except.ok ⟨JSVal.vnum 0, JSVal.vstr ("Unknown Error"), JSVal.vundefined⟩
  | _ => Except.ok ⟨JSVal.vnum 0, JSVal.vstr ("Unknown Error"), JSVal.vundefined⟩

/-- An input on which handleApiError dereferences a null response. -/
def nullResponseInput : JSVal := JSVal.vobj [(("response"), JSVal.vnull)] false ""

/-- Whether an input carries a response field whose value is null or
undefined - the inputs on which member access throws at runtime. -/
def hasNullishResponse (e : JSVal) : Bool :=
  match e with
  | JSVal.vobj fs _ _ =>
    match fs.lookup ("response") with
    | some JSVal.vnull => true
    | some JSVal.vundefined => true
    | _ => false
  | _ => false

/-! ## Bank detector and adapter registry

The preprocessing constants below are transcribed from the verbatim
excerpts of preprocessing/bank_detector.py and
preprocessing/preprocess.py quoted in the repository documentation
(Real Bank Architecture section appended to
src/aurum_frontend/src/lib/api.ts): the Python modules themselves are
not part of this source tree. -/

/-- The 12 supported bank codes (UnifiedPreprocessor.supported_banks). -/
def supported_banks : List String :=
  ["JPM", "MS", "CSC", "Pershing", "CS", "JB", "HSBC", "Valley", "Safra", "LO", "IDB", "Banchile"]

/-- BankDetector.BANK_PATTERNS: the filename-prefix regex per bank code,
exactly the 11 entries of the source dictionary. -/
def BANK_PATTERNS : List (String × String) :=
  [("JPM", "^JPM_"), ("CS", "^CS_"), ("CSC", "^CSC_"), ("JB", "^JB_"),
   ("MS", "^MS_"), ("Valley", "^Valley_"), ("Pershing", "^Pershing_"),
   ("LO", "^LO_"), ("Safra", "^Safra_"), ("IDB", "^IDB_"), ("Banchile", "^Banchile_")]

/-- Character-level leading match: whether the first list is an initial
segment of the second. -/
def leadingMatch : List Char → List Char → Bool
  | [], _ => true
  | _ :: _, [] => false
  | p :: ps, c :: cs => (p == c) && leadingMatch ps cs

/-- Modelled from the spec: BankDetector.detect of
preprocessing/bank_detector.py is not in this source tree; per the spec
it matches the filename-prefix pattern of each bank code and a result of
none stands for DetectionError (no pattern matched).  Each pattern is a
caret anchor followed by literal characters, so matching tests whether
the pattern body leads the filename. -/
def detect_bank (filename : String) : Option String :=
  (BANK_PATTERNS.find? (fun p => leadingMatch (p.2.toList.drop 1) filename.toList)).map
    (fun p => p.1)

/-- Pipeline shape of one bank in the adapter registry. -/
inductive ProcessingType where
  | simple
  | enrichment
  | combination
  | enrichment_combination
deriving DecidableEq

/-- UnifiedPreprocessor.transformer_registry: bank code to transformer
class path, transcribed from the excerpt (every supported bank has a
transformer). -/
def transformer_registry : List (String × String) :=
  [("JPM", "preprocessing.transformers.jpm_transformer.JPMorganTransformer"),
   ("MS", "preprocessing.transformers.ms_transformer.MorganStanleyTransformer"),
   ("CSC", "preprocessing.transformers.csc_transformer.CSCTransformer"),
   ("Pershing", "preprocessing.transformers.pershing_transformer.PershingTransformer"),
   ("CS", "preprocessing.transformers.cs_transformer.CSTransformer"),
   ("JB", "preprocessing.transformers.jb_transformer.JBTransformer"),
   ("HSBC", "preprocessing.transformers.hsbc_transformer.HSBCTransformer"),
   ("Valley", "preprocessing.transformers.valley_transformer.ValleyTransformer"),
   ("Safra", "preprocessing.transformers.safra_transformer.SafraTransformer"),
   ("LO", "preprocessing.transformers.lombard_transformer.LombardTransformer"),
   ("IDB", "preprocessing.transformers.idb_transformer.IDBTransformer"),
   ("Banchile", "preprocessing.transformers.banchile_transformer.BanchileTransformer")]

/-- The adapter registry: which enrichment and combination steps each of
the 12 supported banks needs, transcribed from the per-bank sections of
the Supported Banks documentation (JPM, MS, IDB, Safra direct; HSBC
enrichment; CS, Valley, JB, CSC, Banchile combination; Pershing and LO
both). -/
def adapter_registry : List (String × ProcessingType) :=
  [("JPM", ProcessingType.simple), ("MS", ProcessingType.simple),
   ("IDB", ProcessingType.simple), ("Safra", ProcessingType.simple),
   ("HSBC", ProcessingType.enrichment),
   ("CS", ProcessingType.combination), ("Valley", ProcessingType.combination),
   ("JB", ProcessingType.combination), ("CSC", ProcessingType.combination),
   ("Banchile", ProcessingType.combination),
   ("Pershing", ProcessingType.enrichment_combination),
   ("LO", ProcessingType.enrichment_combination)]

/-! ## Portfolio Calculation Service: Modified Dietz returns

Modelled from the spec: portfolio/services/portfolio_calculation_service.py
and the ModifiedDietzService are not in this source tree; the formulas
below follow the spec (section 4.6) and the verbatim excerpts quoted in
src/DASHBOARD_METRICS_INVESTIGATION_REPORT.md. -/

/-- Standardized transaction type enum. -/
inductive TxType where
  | buy
  | sell
  | deposit
  | withdrawal
  | fee
  | income
deriving DecidableEq

/-- One cash-flow or trade event inside a return period: its type, its
signed amount, and its date as a time coordinate within the period. -/
structure Transaction where
  ttype : TxType
  amount : ℚ
  tdate : ℚ
deriving DecidableEq

/-- Cash-flow classifier: only deposits and withdrawals are external
flows; trades, fees and income are internal. -/
def isExternalFlow (t : TxType) : Bool :=
  match t with
  | TxType.deposit => true
  | TxType.withdrawal => true
  | _ => false

/-- Net external flow of a period: the sum of deposit and withdrawal
amounts. -/
def netExternalFlow (txs : List Transaction) : ℚ :=
  ((txs.filter (fun t => isExternalFlow t.ttype)).map (fun t => t.amount)).sum

/-- Modified Dietz weight of a flow dated d inside the period from
beginDate to endDate. -/
def dietzWeight (beginDate endDate d : ℚ) : ℚ :=
  (endDate - d) / (endDate - beginDate)

/-- Time-weighted external flows of the period. -/
def weightedExternalFlows (beginDate endDate : ℚ) (txs : List Transaction) : ℚ :=
  ((txs.filter (fun t => isExternalFlow t.ttype)).map
    (fun t => t.amount * dietzWeight beginDate endDate t.tdate)).sum

/-- Modified Dietz computation: the dollar gain/loss and the percentage
return of the period.  The percentage is defined as 0 when the
denominator (begin value plus weighted flows) is 0; the function is
total, so no division-by-zero exception can arise. -/
def modifiedDietz (beginValue endValue beginDate endDate : ℚ)
    (txs : List Transaction) : ℚ × ℚ :=
  let gain := endValue - beginValue - netExternalFlow txs
  let denom := beginValue + weightedExternalFlows beginDate endDate txs
  (gain, if denom = 0 then 0 else gain / denom * 100)

/-- The return fields produced per snapshot
(real means this-period, snapshot to snapshot). -/
structure DietzReturnFields where
  real_gain_loss_dollar : ℚ
  real_gain_loss_percent : ℚ
  inception_gain_loss_dollar : ℚ
  inception_gain_loss_percent : ℚ
  period_return : ℚ
deriving DecidableEq

/-- A previously persisted snapshot: its date coordinate and total
value. -/
structure PrevSnapshot where
  snapshot_date : ℚ
  total_value : ℚ
deriving DecidableEq

/-- Modelled from the spec: _calculate_modified_dietz_returns of
portfolio_calculation_service.py.  The first-snapshot fallback (no
previous snapshot) follows the excerpt at
src/DASHBOARD_METRICS_INVESTIGATION_REPORT.md lines 304-315 verbatim:
every return field, the inception fields included, is 0.  The general
branch computes this-period returns from the immediately preceding
snapshot and inception returns from the first-ever snapshot, each with
Modified Dietz, per spec section 4.6. -/
def calculate_modified_dietz_returns (previous_snapshot : Option PrevSnapshot)
    (inception_snapshot : Option PrevSnapshot) (end_value end_date : ℚ)
    (txs : List Transaction) : DietzReturnFields :=
  match previous_snapshot with
  | none => ⟨0, 0, 0, 0, 0⟩
  | some prev =>
    let period := modifiedDietz prev.total_value end_value prev.snapshot_date end_date txs
    let inception :=
      match inception_snapshot with
      | some inc => modifiedDietz inc.total_value end_value inc.snapshot_date end_date txs
      | none => period
    ⟨period.1, period.2, inception.1, inception.2, period.2⟩

/-- One holding, as far as unrealized gain is concerned. -/
structure Position where
  market_value : ℚ
  cost_basis : ℚ
deriving DecidableEq

/-- Total unrealized gain of a list of positions: market value minus
cost basis, summed. -/
def total_unrealized (ps : List Position) : ℚ :=
  (ps.map (fun p => p.market_value - p.cost_basis)).sum

/-! ## Dashboard Cache Aggregator

Modelled from the spec: CorrectDashboardCacheService.aggregate_date_data
of portfolio/services/correct_dashboard_cache_service.py is not in this
source tree; the aggregation below follows the verbatim excerpts at
src/DASHBOARD_METRICS_INVESTIGATION_REPORT.md lines 427-511 (sums of
dollar fields, percent fields accumulated as percent times total_value
for clients with positive total_value, divided by total AUM when that is
positive and 0 otherwise). -/

/-- The per-client metrics read out of a PortfolioSnapshot during
aggregation. -/
structure SnapshotMetrics where
  total_value : ℚ
  inception_gain_loss_dollar : ℚ
  inception_gain_loss_percent : ℚ
  estimated_annual_income : ℚ
  real_gain_loss_dollar : ℚ
  real_gain_loss_percent : ℚ
deriving DecidableEq

/-- The date-keyed aggregate cache record for client_filter ALL. -/
structure DateAggregatedMetrics where
  total_aum : ℚ
  total_inception_dollar : ℚ
  weighted_inception_percent : ℚ
  total_annual_income : ℚ
  total_period_return_dollar : ℚ
  weighted_period_return_percent : ℚ
  client_count : ℕ
deriving DecidableEq

/-- Sum of the constituent total_value fields (the total AUM
accumulator of the aggregation loop). -/
def sumTotalValue (ss : List SnapshotMetrics) : ℚ :=
  (ss.map (fun s => s.total_value)).sum

/-- The weighted inception-percent accumulator: percent times
total_value, added only when total_value is positive (the loop guards
with client_total_value greater than 0). -/
def weightedInceptionAcc (ss : List SnapshotMetrics) : ℚ :=
  (ss.map (fun s =>
    if 0 < s.total_value then s.inception_gain_loss_percent * s.total_value else 0)).sum

/-- The weighted period-percent accumulator, same guard. -/
def weightedPeriodAcc (ss : List SnapshotMetrics) : ℚ :=
  (ss.map (fun s =>
    if 0 < s.total_value then s.real_gain_loss_percent * s.total_value else 0)).sum

/-- aggregate_date_data for client_filter ALL: dollar fields and income
are summed, percent fields are the weighted accumulators divided by
total AUM (0 when total AUM is not positive), client_count counts the
snapshots. -/
def aggregate_date_data (ss : List SnapshotMetrics) : DateAggregatedMetrics :=
  let total := sumTotalValue ss
  { total_aum := total
  , total_inception_dollar := (ss.map (fun s => s.inception_gain_loss_dollar)).sum
  , weighted_inception_percent := if 0 < total then weightedInceptionAcc ss / total else 0
  , total_annual_income := (ss.map (fun s => s.estimated_annual_income)).sum
  , total_period_return_dollar := (ss.map (fun s => s.real_gain_loss_dollar)).sum
  , weighted_period_return_percent := if 0 < total then weightedPeriodAcc ss / total else 0
  , client_count := ss.length }

/-- The two-client example of the spec: total_value 100 with 10 percent
returns, total_value 900 with 0 percent returns. -/
def twoClientExample : List SnapshotMetrics :=
  [⟨100, 10, 10, 0, 10, 10⟩, ⟨900, 0, 0, 0, 0, 0⟩]

/-- A snapshot list containing a client with negative total_value: the
aggregation loop skips it in the weighted numerator but keeps it in the
AUM denominator. -/
def negativeValueExample : List SnapshotMetrics :=
  [⟨-100, 0, 10, 0, 0, 10⟩, ⟨200, 0, 0, 0, 0, 0⟩]

/-! ## Combiner

Modelled from the spec: the combiner classes
(preprocessing/combiners/pershing_combiner.py and the six others) are
not in this source tree, only their docstrings are quoted in the
repository documentation.  Per spec section 4.3, combine concatenates
the per-account files in processing order and deduplicates on the
(client_code, account_code, identifier) key keeping the latest value
(last-write-wins). -/

/-- The dedup key of a combined row. -/
structure CombKey where
  client_code : String
  account_code : String
  identifier : String
deriving DecidableEq

/-- One row of a per-account file: its key and its payload. -/
structure CombRow where
  key : CombKey
  value : String
deriving DecidableEq

/-- The rows of a list carrying a given key. -/
def rowsWithKey (rows : List CombRow) (k : CombKey) : List CombRow :=
  rows.filter (fun x => decide (x.key = k))

/-- Insert one row into the accumulated output: replace the existing row
with the same key if there is one (last write wins), append otherwise. -/
def upsert_row (rows : List CombRow) (r : CombRow) : List CombRow :=
  if rows.any (fun x => decide (x.key = r.key)) then
    rows.map (fun x => if x.key = r.key then r else x)
  else rows ++ [r]

/-- combine_client_files: fold the discovered files in processing order,
upserting every row. -/
def combine_client_files (files : List (List CombRow)) : List CombRow :=
  files.foldl (fun acc f => f.foldl upsert_row acc) []

/-- The last row carrying a given key in a list of rows (the
specification-side notion of latest value). -/
def lastRowWithKey : List CombRow → CombKey → Option CombRow
  | [], _ => none
  | r :: rs, k =>
    match lastRowWithKey rs k with
    | some r2 => some r2
    | none => if r.key = k then some r else none

/-- At most one row per key: the invariant the combined output
maintains. -/
def dedupInv (rows : List CombRow) : Prop :=
  ∀ k, (rowsWithKey rows k).length ≤ 1

/-! ## Transformers and the Unified Preprocessor

Modelled from the spec: preprocessing/preprocess.py
(UnifiedPreprocessor.process_all_banks) and the transformer classes are
not in this source tree.  Per spec sections 4.4, 4.5 and 7, each bank
transform either standardizes its rows or raises TransformMappingError
on malformed input; the orchestrator runs every bank independently,
collects a per-bank status list, merges the successful banks and, when
output already exists for the date, overwrites it only under
force_reprocess. -/

/-- One standardized output row: originating bank, identifier,
value. -/
structure StdRow where
  bank_code : String
  identifier : String
  market_value : ℚ
deriving DecidableEq

/-- The raw input of one bank for one date: its code, its native rows,
and whether expected columns are missing (which makes the transform
raise). -/
structure BankInput where
  bank_code : String
  rows : List (String × ℚ)
  malformed : Bool
deriving DecidableEq

/-- The bank transform: TransformMappingError on malformed input,
otherwise the standardized rows tagged with the bank code. -/
def transform_bank (b : BankInput) : Except String (List StdRow) :=
  if b.malformed then Except.error ("TransformMappingError")
  else Except.ok (b.rows.map (fun r => ⟨b.bank_code, r.1, r.2⟩))

/-- The structured batch result of one orchestrator run: the succeeded
bank codes, the failed bank codes with their errors, and the merged
standardized output of the successful banks. -/
structure BatchResult where
  succeeded : List String
  failed : List (String × String)
  merged : List StdRow
deriving DecidableEq

/-- process_all_banks: run every bank sub-pipeline independently; a
failure is recorded in the status list and never aborts the remaining
banks; the final merge concatenates the successful banks in order. -/
def process_all_banks (banks : List BankInput) : BatchResult :=
  banks.foldl (fun acc b =>
    match transform_bank b with
    | Except.ok rows => ⟨acc.succeeded ++ [b.bank_code], acc.failed, acc.merged ++ rows⟩
    | Except.error e => ⟨acc.succeeded, acc.failed ++ [(b.bank_code, e)], acc.merged⟩)
    ⟨[], [], []⟩

/-- Lookup of the stored standardized output of a date. -/
def lookup_date : List (String × List StdRow) → String → Option (List StdRow)
  | [], _ => none
  | (d, out) :: rest, date => if d = date then some out else lookup_date rest date

/-- run_preprocessing for one date: when output for the date already
exists it is returned unchanged unless force_reprocess is set; otherwise
the banks are processed and the merged output stored.  Returns the new
store and the standardized output for the date. -/
def run_preprocessing (store : List (String × List StdRow)) (date : String)
    (banks : List BankInput) (force_reprocess : Bool) :
    (List (String × List StdRow)) × List StdRow :=
  match lookup_date store date with
  | some out =>
    if force_reprocess then
      let fresh := (process_all_banks banks).merged
      (store.map (fun p => if p.1 = date then (date, fresh) else p), fresh)
    else (store, out)
  | none =>
    let fresh := (process_all_banks banks).merged
    (store ++ [(date, fresh)], fresh)

/-- The three-bank example of the spec: the second bank raises
TransformMappingError, the other two succeed. -/
def threeBankExample : List BankInput :=
  [⟨"JPM", [("AAPL", 15000)], false⟩,
   ⟨"MS", [("MSFT", 9000)], true⟩,
   ⟨"CS", [("NVDA", 4000)], false⟩]

/-! ## Helper lemmas -/

theorem rowsWithKey_cons (r : CombRow) (rs : List CombRow) (k : CombKey) :
    rowsWithKey (r :: rs) k =
      if r.key = k then r :: rowsWithKey rs k else rowsWithKey rs k := by
  by_cases h : r.key = k <;> simp [rowsWithKey, List.filter_cons, h]

theorem rowsWithKey_append (xs ys : List CombRow) (k : CombKey) :
    rowsWithKey (xs ++ ys) k = rowsWithKey xs k ++ rowsWithKey ys k := by
  simp [rowsWithKey, List.filter_append]

theorem rowsWithKey_map_update_self (rows : List CombRow) (r : CombRow) :
    rowsWithKey (rows.map (fun x => if x.key = r.key then r else x)) r.key
      = (rowsWithKey rows r.key).map (fun _ => r) := by
  induction rows with
  | nil => rfl
  | cons x xs ih =>
    by_cases h : x.key = r.key
    · simp [rowsWithKey_cons, h, ih]
    · simp [rowsWithKey_cons, h, ih]

theorem rowsWithKey_map_update_ne (rows : List CombRow) (r : CombRow) (k : CombKey)
    (hk : r.key ≠ k) :
    rowsWithKey (rows.map (fun x => if x.key = r.key then r else x)) k
      = rowsWithKey rows k := by
  induction rows with
  | nil => rfl
  | cons x xs ih =>
    simp only [List.map_cons]
    by_cases h : x.key = r.key
    · have hxk : x.key ≠ k := by rw [h]; exact hk
      rw [if_pos h, rowsWithKey_cons, if_neg hk, ih, rowsWithKey_cons, if_neg hxk]
    · rw [if_neg h, rowsWithKey_cons, ih, rowsWithKey_cons]

theorem upsert_rowsWithKey_self (acc : List CombRow) (r : CombRow)
    (hlen : (rowsWithKey acc r.key).length ≤ 1) :
    rowsWithKey (upsert_row acc r) r.key = [r] := by
  unfold upsert_row
  by_cases h : acc.any (fun x => decide (x.key = r.key)) = true
  · rw [if_pos h, rowsWithKey_map_update_self]
    obtain ⟨x, hx, hxk⟩ := List.any_eq_true.mp h
    have hmem : x ∈ rowsWithKey acc r.key := List.mem_filter.mpr ⟨hx, hxk⟩
    have hne : rowsWithKey acc r.key ≠ [] := by
      intro hnil
      rw [hnil] at hmem
      exact List.not_mem_nil x hmem
    have hpos : 0 < (rowsWithKey acc r.key).length := List.length_pos.mpr hne
    have h1 : (rowsWithKey acc r.key).length = 1 := by omega
    obtain ⟨a, ha⟩ := List.length_eq_one.mp h1
    rw [ha]
    rfl
  · rw [if_neg h, rowsWithKey_append]
    have hempty : rowsWithKey acc r.key = [] := by
      rw [rowsWithKey, List.filter_eq_nil_iff]
      intro a ha hd
      exact h (List.any_eq_true.mpr ⟨a, ha, hd⟩)
    rw [hempty]
    simp [rowsWithKey_cons, rowsWithKey]

theorem upsert_rowsWithKey_ne (acc : List CombRow) (r : CombRow) (k : CombKey)
    (hk : r.key ≠ k) :
    rowsWithKey (upsert_row acc r) k = rowsWithKey acc k := by
  unfold upsert_row
  by_cases h : acc.any (fun x => decide (x.key = r.key)) = true
  · rw [if_pos h]
    exact rowsWithKey_map_update_ne acc r k hk
  · rw [if_neg h, rowsWithKey_append]
    simp [rowsWithKey_cons, rowsWithKey, hk]

theorem dedupInv_upsert (acc : List CombRow) (r : CombRow) (h : dedupInv acc) :
    dedupInv (upsert_row acc r) := by
  intro k
  by_cases hk : r.key = k
  · rw [← hk, upsert_rowsWithKey_self acc r (h r.key)]
    simp
  · rw [upsert_rowsWithKey_ne acc r k hk]
    exact h k

theorem foldl_upsert_spec (rows : List CombRow) : ∀ acc, dedupInv acc → ∀ k,
    rowsWithKey (rows.foldl upsert_row acc) k =
      match lastRowWithKey rows k with
      | some r => [r]
      | none => rowsWithKey acc k := by
  induction rows with
  | nil => intro acc _ k; simp [lastRowWithKey]
  | cons r rs ih =>
    intro acc hacc k
    have hacc2 : dedupInv (upsert_row acc r) := dedupInv_upsert acc r hacc
    have H := ih (upsert_row acc r) hacc2 k
    simp only [List.foldl_cons]
    rw [H]
    cases hlast : lastRowWithKey rs k with
    | some r2 => simp [lastRowWithKey, hlast]
    | none =>
      simp only [lastRowWithKey, hlast]
      by_cases hk : r.key = k
      · subst hk
        rw [upsert_rowsWithKey_self acc r (hacc r.key)]
        simp
      · rw [upsert_rowsWithKey_ne acc r k hk]
        simp [hk]

theorem lastRowWithKey_mem (rows : List CombRow) (k : CombKey) (r : CombRow)
    (h : lastRowWithKey rows k = some r) : r ∈ rows ∧ r.key = k := by
  induction rows with
  | nil => simp [lastRowWithKey] at h
  | cons x xs ih =>
    rw [lastRowWithKey] at h
    cases hx : lastRowWithKey xs k with
    | some r2 =>
      rw [hx] at h
      obtain ⟨hmem, hkey⟩ := ih (by rw [hx, ← h])
      exact ⟨List.mem_cons_of_mem x hmem, hkey⟩
    | none =>
      rw [hx] at h
      by_cases hxk : x.key = k
      · rw [if_pos hxk] at h
        obtain rfl : x = r := by injection h
        exact ⟨List.mem_cons_self x xs, hxk⟩
      · rw [if_neg hxk] at h
        exact absurd h (by simp)

theorem sum_map_div {α : Type} (l : List α) (f : α → ℚ) (c : ℚ) :
    (l.map (fun a => f a / c)).sum = (l.map f).sum / c := by
  induction l with
  | nil => simp
  | cons x xs ih => simp [ih, add_div]

theorem process_all_banks_count (banks : List BankInput) :
    ∀ acc : BatchResult,
      ((banks.foldl (fun acc b =>
          match transform_bank b with
          | Except.ok rows => ⟨acc.succeeded ++ [b.bank_code], acc.failed, acc.merged ++ rows⟩
          | Except.error e =>
              ⟨acc.succeeded, acc.failed ++ [(b.bank_code, e)], acc.merged⟩) acc).succeeded.length
        + (banks.foldl (fun acc b =>
          match transform_bank b with
          | Except.ok rows => ⟨acc.succeeded ++ [b.bank_code], acc.failed, acc.merged ++ rows⟩
          | Except.error e =>
              ⟨acc.succeeded, acc.failed ++ [(b.bank_code, e)], acc.merged⟩) acc).failed.length)
        = acc.succeeded.length + acc.failed.length + banks.length := by
  induction banks with
  | nil => intro acc; simp
  | cons b bs ih =>
    intro acc
    simp only [List.foldl_cons]
    cases hb : transform_bank b with
    | ok rows =>
      rw [ih]
      simp
      omega
    | error e =>
      rw [ih]
      simp
      omega

theorem lookup_date_append_none (st : List (String × List StdRow)) (date : String)
    (extra : List (String × List StdRow)) (h : lookup_date st date = none) :
    lookup_date (st ++ extra) date = lookup_date extra date := by
  induction st with
  | nil => simp
  | cons p ps ih =>
    rw [lookup_date] at h
    by_cases hd : p.1 = date
    · rw [if_pos hd] at h; exact absurd h (by simp)
    · rw [if_neg hd] at h
      show lookup_date ((p.1, p.2) :: (ps ++ extra)) date = lookup_date extra date
      rw [lookup_date, if_neg hd]
      exact ih h

theorem optChain_eq_spec (v : JSVal) (name : String) :
    optChain v name = Except.ok (specField v name) := by
  cases v <;> rfl

/-! ## Claim theorems -/

/-- C2: the Modified Dietz computation satisfies
R = (EndValue - BeginValue - NetExternalFlow) divided by
(BeginValue + sum of flow times weight), with only deposits and
withdrawals counted as external flows; on BeginValue 1000000, EndValue
1050000 and one deposit of 30000 at the midpoint of the period, the
dollar gain is 20000 and the percent return is within 0.01 of
1.9704. -/
theorem modified_dietz_formula :
    (∀ (beginValue endValue beginDate endDate : ℚ) (txs : List Transaction),
        beginValue + weightedExternalFlows beginDate endDate txs ≠ 0 →
        (modifiedDietz beginValue endValue beginDate endDate txs).1
            = endValue - beginValue - netExternalFlow txs
          ∧ (modifiedDietz beginValue endValue beginDate endDate txs).2
            = (endValue - beginValue - netExternalFlow txs)
                / (beginValue + weightedExternalFlows beginDate endDate txs) * 100)
    ∧ (isExternalFlow TxType.deposit = true ∧ isExternalFlow TxType.withdrawal = true
        ∧ isExternalFlow TxType.buy = false ∧ isExternalFlow TxType.sell = false
        ∧ isExternalFlow TxType.fee = false ∧ isExternalFlow TxType.income = false)
    ∧ (modifiedDietz 1000000 1050000 0 1 [⟨TxType.deposit, 30000, 1/2⟩]).1 = 20000
    ∧ |(modifiedDietz 1000000 1050000 0 1 [⟨TxType.deposit, 30000, 1/2⟩]).2
        - 19704/10000| ≤ 1/100 := by
  have hgain : (modifiedDietz 1000000 1050000 0 1 [⟨TxType.deposit, 30000, 1/2⟩]).1
      = 20000 := by
    norm_num [modifiedDietz, netExternalFlow, isExternalFlow, List.filter_cons]
  have hpct : (modifiedDietz 1000000 1050000 0 1 [⟨TxType.deposit, 30000, 1/2⟩]).2
      = 400/203 := by
    norm_num [modifiedDietz, netExternalFlow, weightedExternalFlows, dietzWeight,
      isExternalFlow, List.filter_cons]
  refine ⟨?_, by decide, hgain, ?_⟩
  · intro beginValue endValue beginDate endDate txs h
    exact ⟨rfl, by simp [modifiedDietz, h]⟩
  · rw [hpct, show (400 : ℚ)/203 - 19704/10000 = 11/253750 from by norm_num,
      abs_of_nonneg (by norm_num)]
    norm_num

/-- Witness for the Modified Dietz formula at the concrete example
input of the spec. -/
theorem modified_dietz_formula_witness :
    ((1000000 : ℚ) + weightedExternalFlows 0 1 [⟨TxType.deposit, 30000, 1/2⟩] ≠ 0)
    ∧ (modifiedDietz 1000000 1050000 0 1 [⟨TxType.deposit, 30000, 1/2⟩]).2
        = (1050000 - 1000000 - netExternalFlow [⟨TxType.deposit, 30000, 1/2⟩])
            / (1000000 + weightedExternalFlows 0 1 [⟨TxType.deposit, 30000, 1/2⟩]) * 100 := by
  have hden : (1000000 : ℚ) + weightedExternalFlows 0 1 [⟨TxType.deposit, 30000, 1/2⟩] ≠ 0 := by
    norm_num [weightedExternalFlows, dietzWeight, isExternalFlow, List.filter_cons]
  exact ⟨hden,
    (modified_dietz_formula.1 1000000 1050000 0 1 [⟨TxType.deposit, 30000, 1/2⟩] hden).2⟩

/-- C3: when the denominator BeginValue plus time-weighted external
flows is 0, the percentage return is exactly 0 and the dollar gain/loss
is still reported; the computation is a total function, so no
division-by-zero exception can arise. -/
theorem dietz_zero_denominator (beginValue endValue beginDate endDate : ℚ)
    (txs : List Transaction)
    (h : beginValue + weightedExternalFlows beginDate endDate txs = 0) :
    (modifiedDietz beginValue endValue beginDate endDate txs).2 = 0
    ∧ (modifiedDietz beginValue endValue beginDate endDate txs).1
        = endValue - beginValue - netExternalFlow txs := by
  exact ⟨by simp [modifiedDietz, h], rfl⟩

/-- Witness for the zero-denominator guard at a concrete input with
begin value 0 and no flows. -/
theorem dietz_zero_denominator_witness :
    ((0 : ℚ) + weightedExternalFlows 0 1 [] = 0)
    ∧ (modifiedDietz 0 500 0 1 []).2 = 0
    ∧ (modifiedDietz 0 500 0 1 []).1 = 500 - 0 - netExternalFlow [] := by
  have h : (0 : ℚ) + weightedExternalFlows 0 1 [] = 0 := by
    norm_num [weightedExternalFlows]
  have H := dietz_zero_denominator 0 500 0 1 [] h
  exact ⟨h, H.1, H.2⟩

/-- C4 counterexample: at a first-ever snapshot (no previous snapshot)
with one position of market value 150 and cost basis 100, the total
unrealized position is 50, but the returned inception gain/loss dollar
field is 0, not 50 as the claim states. -/
theorem first_snapshot_inception_not_unrealized :
    total_unrealized [⟨150, 100⟩] = 50
    ∧ (calculate_modified_dietz_returns none none 150 1 []).inception_gain_loss_dollar = 0
    ∧ (calculate_modified_dietz_returns none none 150 1 []).inception_gain_loss_dollar
        ≠ total_unrealized [⟨150, 100⟩] := by
  have hu : total_unrealized [⟨150, 100⟩] = 50 := by norm_num [total_unrealized]
  refine ⟨hu, rfl, ?_⟩
  rw [hu]
  show (0 : ℚ) ≠ 50
  norm_num

/-- C4 amended: when no previous snapshot exists, every return field of
the first-snapshot fallback is 0 - the this-period fields and the
inception fields alike. -/
theorem first_snapshot_returns_all_zero :
    ∀ (inception_snapshot : Option PrevSnapshot) (end_value end_date : ℚ)
      (txs : List Transaction),
      calculate_modified_dietz_returns none inception_snapshot end_value end_date txs
        = ⟨0, 0, 0, 0, 0⟩ :=
  fun _ _ _ _ => rfl

/-- C7: the orchestrator returns a per-bank status list in which every
bank reaches a terminal state (successes plus failures count all
banks), and on the three-bank example where the second transform raises
TransformMappingError the batch result reports 2 successes, 1 failure,
and the merged output holds exactly the standardized rows of the two
successful banks. -/
theorem process_all_banks_partial_success :
    (∀ banks : List BankInput,
      (process_all_banks banks).succeeded.length
        + (process_all_banks banks).failed.length = banks.length)
    ∧ (process_all_banks threeBankExample).succeeded = ["JPM", "CS"]
    ∧ (process_all_banks threeBankExample).failed = [(("MS"), ("TransformMappingError"))]
    ∧ (process_all_banks threeBankExample).merged
        = [⟨"JPM", "AAPL", 15000⟩, ⟨"CS", "NVDA", 4000⟩] := by
  refine ⟨?_, rfl, rfl, rfl⟩
  intro banks
  have h := process_all_banks_count banks ⟨[], [], []⟩
  unfold process_all_banks
  simp only [List.length_nil] at h
  omega

/-- C5: when two per-account files both contain the key
(client_code, account_code, identifier), the combined output contains
exactly one row for that key, and it is the last row with that key of
the file processed last. -/
theorem combiner_last_write_wins (f1 f2 : List CombRow) (k : CombKey) (r1 r2 : CombRow)
    (h1 : lastRowWithKey f1 k = some r1) (h2 : lastRowWithKey f2 k = some r2)
    (hne : r1.value ≠ r2.value) :
    rowsWithKey (combine_client_files [f1, f2]) k = [r2]
    ∧ (combine_client_files [f1, f2]).countP (fun x => decide (x.key = k)) = 1
    ∧ r2 ∈ f2 := by
  have e : combine_client_files [f1, f2] = f2.foldl upsert_row (f1.foldl upsert_row []) := rfl
  have inv0 : dedupInv ([] : List CombRow) := by
    intro kk
    simp [rowsWithKey]
  have inv1 : dedupInv (f1.foldl upsert_row []) := by
    intro kk
    rw [foldl_upsert_spec f1 [] inv0 kk]
    cases lastRowWithKey f1 kk <;> simp [rowsWithKey]
  have hmain : rowsWithKey (f2.foldl upsert_row (f1.foldl upsert_row [])) k = [r2] := by
    have H := foldl_upsert_spec f2 (f1.foldl upsert_row []) inv1 k
    rw [h2] at H
    exact H
  refine ⟨by rw [e]; exact hmain, ?_, (lastRowWithKey_mem f2 k r2 h2).1⟩
  rw [e, List.countP_eq_length_filter]
  show (rowsWithKey (f2.foldl upsert_row (f1.foldl upsert_row [])) k).length = 1
  rw [hmain]
  rfl

/-- Witness for combiner dedup at two concrete one-row files sharing a
key with different values. -/
theorem combiner_last_write_wins_witness :
    lastRowWithKey [⟨⟨"VLP", "TTAdmin", "912828XG"⟩, "100000"⟩] ⟨"VLP", "TTAdmin", "912828XG"⟩
        = some ⟨⟨"VLP", "TTAdmin", "912828XG"⟩, "100000"⟩
    ∧ lastRowWithKey [⟨⟨"VLP", "TTAdmin", "912828XG"⟩, "105000"⟩] ⟨"VLP", "TTAdmin", "912828XG"⟩
        = some ⟨⟨"VLP", "TTAdmin", "912828XG"⟩, "105000"⟩
    ∧ rowsWithKey
        (combine_client_files [[⟨⟨"VLP", "TTAdmin", "912828XG"⟩, "100000"⟩],
                               [⟨⟨"VLP", "TTAdmin", "912828XG"⟩, "105000"⟩]])
        ⟨"VLP", "TTAdmin", "912828XG"⟩
        = [⟨⟨"VLP", "TTAdmin", "912828XG"⟩, "105000"⟩] := by
  have h1 : lastRowWithKey [⟨⟨"VLP", "TTAdmin", "912828XG"⟩, "100000"⟩]
      ⟨"VLP", "TTAdmin", "912828XG"⟩ = some ⟨⟨"VLP", "TTAdmin", "912828XG"⟩, "100000"⟩ := by
    decide
  have h2 : lastRowWithKey [⟨⟨"VLP", "TTAdmin", "912828XG"⟩, "105000"⟩]
      ⟨"VLP", "TTAdmin", "912828XG"⟩ = some ⟨⟨"VLP", "TTAdmin", "912828XG"⟩, "105000"⟩ := by
    decide
  have H := combiner_last_write_wins
    [⟨⟨"VLP", "TTAdmin", "912828XG"⟩, "100000"⟩]
    [⟨⟨"VLP", "TTAdmin", "912828XG"⟩, "105000"⟩]
    ⟨"VLP", "TTAdmin", "912828XG"⟩
    ⟨⟨"VLP", "TTAdmin", "912828XG"⟩, "100000"⟩
    ⟨⟨"VLP", "TTAdmin", "912828XG"⟩, "105000"⟩
    h1 h2 (by decide)
  exact ⟨h1, h2, H.1⟩

/-- C6: running the preprocessor twice for the same date without
force_reprocess returns the same store and the identical standardized
output the second time, and when output for the date already exists the
run without force_reprocess is a no-op returning the existing
output. -/
theorem preprocess_idempotent (store : List (String × List StdRow)) (date : String)
    (banks : List BankInput) :
    (run_preprocessing (run_preprocessing store date banks false).1 date banks false
        = run_preprocessing store date banks false)
    ∧ (∀ out, lookup_date store date = some out →
        run_preprocessing store date banks false = (store, out)) := by
  constructor
  · cases hl : lookup_date store date with
    | some out =>
      have e1 : run_preprocessing store date banks false = (store, out) := by
        simp [run_preprocessing, hl]
      rw [e1]
      exact e1
    | none =>
      have e1 : run_preprocessing store date banks false
          = (store ++ [(date, (process_all_banks banks).merged)],
             (process_all_banks banks).merged) := by
        simp [run_preprocessing, hl]
      rw [e1]
      have hl2 : lookup_date (store ++ [(date, (process_all_banks banks).merged)]) date
          = some (process_all_banks banks).merged := by
        rw [lookup_date_append_none store date _ hl]
        simp [lookup_date]
      simp [run_preprocessing, hl2]
  · intro out h
    simp [run_preprocessing, h]

/-- Witness for preprocessing idempotence at a concrete store already
holding output for the date. -/
theorem preprocess_idempotent_witness :
    lookup_date [(("01_01_2025"), [(⟨"JPM", "AAPL", 15000⟩ : StdRow)])] ("01_01_2025")
        = some [⟨"JPM", "AAPL", 15000⟩]
    ∧ run_preprocessing [(("01_01_2025"), [(⟨"JPM", "AAPL", 15000⟩ : StdRow)])]
        ("01_01_2025") [] false
        = ([(("01_01_2025"), [⟨"JPM", "AAPL", 15000⟩])], [⟨"JPM", "AAPL", 15000⟩]) := by
  have h : lookup_date [(("01_01_2025"), [(⟨"JPM", "AAPL", 15000⟩ : StdRow)])] ("01_01_2025")
      = some [⟨"JPM", "AAPL", 15000⟩] := rfl
  exact ⟨h, (preprocess_idempotent [(("01_01_2025"), [(⟨"JPM", "AAPL", 15000⟩ : StdRow)])]
    ("01_01_2025") []).2 [⟨"JPM", "AAPL", 15000⟩] h⟩

/-- C1 counterexample: with a constituent client of negative
total_value (value -100, period return 10 percent, next to a client of
value 200), the aggregated percentage is 0 and differs from the
value-weighted average with weights total_value over sum of
total_value, which is -10. -/
theorem aggregate_negative_value_cex :
    (aggregate_date_data negativeValueExample).weighted_period_return_percent
      ≠ (negativeValueExample.map (fun s =>
          s.real_gain_loss_percent * (s.total_value / sumTotalValue negativeValueExample))).sum := by
  have hl : (aggregate_date_data negativeValueExample).weighted_period_return_percent = 0 := by
    norm_num [aggregate_date_data, weightedPeriodAcc, sumTotalValue, negativeValueExample]
  have hr : (negativeValueExample.map (fun s =>
      s.real_gain_loss_percent * (s.total_value / sumTotalValue negativeValueExample))).sum
      = -10 := by
    norm_num [sumTotalValue, negativeValueExample]
  rw [hl, hr]
  norm_num

/-- C1 amended: for snapshot lists whose total_value fields are all
nonnegative and whose total AUM is positive, every aggregated
percentage field of aggregate_date_data equals the value-weighted
average of the constituent percentage fields with weights total_value
over total AUM (the loop skips clients of non-positive total_value in
the weighted numerator, which changes nothing for nonnegative values);
on the two-client example (100 at 10 percent, 900 at 0 percent) the
aggregated return is 1 percent, not the unweighted average 5. -/
theorem aggregate_weighted_average :
    (∀ ss : List SnapshotMetrics, (∀ s ∈ ss, 0 ≤ s.total_value) → 0 < sumTotalValue ss →
      (aggregate_date_data ss).weighted_period_return_percent
          = (ss.map (fun s => s.real_gain_loss_percent * (s.total_value / sumTotalValue ss))).sum
      ∧ (aggregate_date_data ss).weighted_inception_percent
          = (ss.map (fun s =>
              s.inception_gain_loss_percent * (s.total_value / sumTotalValue ss))).sum)
    ∧ (aggregate_date_data twoClientExample).weighted_period_return_percent = 1
    ∧ (aggregate_date_data twoClientExample).weighted_period_return_percent ≠ 5 := by
  refine ⟨?_, ?_, ?_⟩
  · intro ss hpos htot
    constructor
    · calc (aggregate_date_data ss).weighted_period_return_percent
          = (ss.map (fun s => s.real_gain_loss_percent * s.total_value)).sum
              / sumTotalValue ss := by
            simp only [aggregate_date_data]
            rw [if_pos htot, weightedPeriodAcc]
            have hm : ss.map (fun s =>
                if 0 < s.total_value then s.real_gain_loss_percent * s.total_value else 0)
                = ss.map (fun s => s.real_gain_loss_percent * s.total_value) := by
              apply List.map_congr_left
              intro s hs
              rcases lt_or_eq_of_le (hpos s hs) with h | h
              · rw [if_pos h]
              · rw [if_neg (by rw [← h]; exact lt_irrefl 0), ← h, mul_zero]
            rw [hm]
        _ = (ss.map (fun s => s.real_gain_loss_percent * s.total_value
              / sumTotalValue ss)).sum :=
            (sum_map_div ss (fun s => s.real_gain_loss_percent * s.total_value)
              (sumTotalValue ss)).symm
        _ = (ss.map (fun s =>
              s.real_gain_loss_percent * (s.total_value / sumTotalValue ss))).sum := by
            congr 1
            apply List.map_congr_left
            intro s _
            rw [mul_div_assoc]
    · calc (aggregate_date_data ss).weighted_inception_percent
          = (ss.map (fun s => s.inception_gain_loss_percent * s.total_value)).sum
              / sumTotalValue ss := by
            simp only [aggregate_date_data]
            rw [if_pos htot, weightedInceptionAcc]
            have hm : ss.map (fun s =>
                if 0 < s.total_value then s.inception_gain_loss_percent * s.total_value else 0)
                = ss.map (fun s => s.inception_gain_loss_percent * s.total_value) := by
              apply List.map_congr_left
              intro s hs
              rcases lt_or_eq_of_le (hpos s hs) with h | h
              · rw [if_pos h]
              · rw [if_neg (by rw [← h]; exact lt_irrefl 0), ← h, mul_zero]
            rw [hm]
        _ = (ss.map (fun s => s.inception_gain_loss_percent * s.total_value
              / sumTotalValue ss)).sum :=
            (sum_map_div ss (fun s => s.inception_gain_loss_percent * s.total_value)
              (sumTotalValue ss)).symm
        _ = (ss.map (fun s =>
              s.inception_gain_loss_percent * (s.total_value / sumTotalValue ss))).sum := by
            congr 1
            apply List.map_congr_left
            intro s _
            rw [mul_div_assoc]
  · norm_num [aggregate_date_data, weightedPeriodAcc, sumTotalValue, twoClientExample]
  · norm_num [aggregate_date_data, weightedPeriodAcc, sumTotalValue, twoClientExample]

/-- Witness for the weighted aggregation at the concrete two-client
example of the spec. -/
theorem aggregate_weighted_average_witness :
    (∀ s ∈ twoClientExample, 0 ≤ s.total_value)
    ∧ 0 < sumTotalValue twoClientExample
    ∧ (aggregate_date_data twoClientExample).weighted_period_return_percent
        = (twoClientExample.map (fun s =>
            s.real_gain_loss_percent * (s.total_value / sumTotalValue twoClientExample))).sum := by
  have hpos : ∀ s ∈ twoClientExample, 0 ≤ s.total_value := by
    intro s hs
    simp only [twoClientExample, List.mem_cons, List.mem_singleton] at hs
    rcases hs with h | h | h
    · rw [h]; norm_num
    · rw [h]; norm_num
    · exact absurd h (List.not_mem_nil s)
  have htot : 0 < sumTotalValue twoClientExample := by
    norm_num [sumTotalValue, twoClientExample]
  exact ⟨hpos, htot, (aggregate_weighted_average.1 twoClientExample hpos htot).1⟩

/-- C8 counterexample: HSBC is one of the 12 supported bank codes, but
the BANK_PATTERNS dictionary carries no filename pattern for it (its 11
entries cover the other banks only). -/
theorem bank_patterns_missing_hsbc :
    ("HSBC" ∈ supported_banks)
    ∧ supported_banks.length = 12
    ∧ BANK_PATTERNS.lookup ("HSBC") = none := by
  decide

/-- C8 amended: the detector covers exactly 11 of the 12 supported bank
codes with one filename-prefix pattern each (every pattern a caret
anchor on the bank code followed by an underscore, keys distinct), HSBC
being the only supported bank without a pattern; a filename matching no
pattern yields none (DetectionError), a matching filename yields its
bank code. -/
theorem bank_detector_eleven_patterns :
    BANK_PATTERNS.length = 11
    ∧ (supported_banks.filter (fun b => (BANK_PATTERNS.lookup b).isSome)).length = 11
    ∧ supported_banks.filter (fun b => (BANK_PATTERNS.lookup b).isNone) = ["HSBC"]
    ∧ (BANK_PATTERNS.map (fun p => p.1)).Nodup
    ∧ (BANK_PATTERNS.all (fun p => p.2 == "^" ++ p.1 ++ "_")) = true
    ∧ detect_bank ("JPM_securities_01_01_2025.xlsx") = some ("JPM")
    ∧ detect_bank ("HSBC_securities_01_01_2025.xlsx") = none
    ∧ detect_bank ("statement.xlsx") = none := by
  decide

/-- C9: the adapter registry partitions the 12 supported bank codes by
pipeline shape into exactly 4 transformer-only banks, 1
enrichment-only bank, 5 combination-only banks and 2 banks needing
both, and every supported bank has a transformer in the transformer
registry. -/
theorem adapter_registry_partition :
    adapter_registry.length = 12
    ∧ (adapter_registry.map (fun p => p.1)).Nodup
    ∧ (adapter_registry.filter (fun p => decide (p.2 = ProcessingType.simple))).length = 4
    ∧ (adapter_registry.filter (fun p => decide (p.2 = ProcessingType.enrichment))).length = 1
    ∧ (adapter_registry.filter (fun p => decide (p.2 = ProcessingType.combination))).length = 5
    ∧ (adapter_registry.filter
        (fun p => decide (p.2 = ProcessingType.enrichment_combination))).length = 2
    ∧ (supported_banks.all (fun b => (adapter_registry.lookup b).isSome)) = true
    ∧ (supported_banks.all (fun b => (transformer_registry.lookup b).isSome)) = true
    ∧ transformer_registry.length = 12 := by
  decide

/-- C10 counterexample: on the object whose response field is null,
handleApiError dereferences the null response and throws a TypeError
instead of returning an ApiError. -/
theorem handleApiError_null_response_throws :
    handleApiError nullResponseInput = Except.error ("TypeError") := rfl

/-- C10 amended: handleApiError behaves exactly as the explicit
specification-side case analysis: inputs with a response field of null
or undefined value throw a TypeError; every other input yields an
ApiError - status and payload read off the response value with the
message falling back from data message to data error to API Error when
a response field is present, status 0 with the network-error message
when only a request field is present, status 0 with the error message
for Error instances, and status 0 with Unknown Error otherwise. -/
theorem handleApiError_cases :
    ∀ e : JSVal,
      handleApiError e = handleApiErrorSpec e
      ∧ ((handleApiError e).isOk = true ∨ hasNullishResponse e = true) := by
  intro e
  cases e with
  | vstr s => exact ⟨rfl, Or.inl rfl⟩
  | vnum n => exact ⟨rfl, Or.inl rfl⟩
  | vbool b => exact ⟨rfl, Or.inl rfl⟩
  | vnull => exact ⟨rfl, Or.inl rfl⟩
  | vundefined => exact ⟨rfl, Or.inl rfl⟩
  | vobj fs isErr msg =>
    cases hr : fs.lookup ("response") with
    | some resp =>
      cases resp with
      | vnull =>
        refine ⟨?_, Or.inr ?_⟩
        · simp only [handleApiError, handleApiErrorSpec, hr]
          rfl
        · simp only [hasNullishResponse, hr]
      | vundefined =>
        refine ⟨?_, Or.inr ?_⟩
        · simp only [handleApiError, handleApiErrorSpec, hr]
          rfl
        · simp only [hasNullishResponse, hr]
      | vstr s =>
        refine ⟨?_, Or.inl ?_⟩
        · simp only [handleApiError, handleApiErrorSpec, hr]
          rfl
        · simp only [handleApiError, hr]
          rfl
      | vnum n =>
        refine ⟨?_, Or.inl ?_⟩
        · simp only [handleApiError, handleApiErrorSpec, hr]
          rfl
        · simp only [handleApiError, hr]
          rfl
      | vbool b =>
        refine ⟨?_, Or.inl ?_⟩
        · simp only [handleApiError, handleApiErrorSpec, hr]
          rfl
        · simp only [handleApiError, hr]
          rfl
      | vobj fs2 isErr2 msg2 =>
        refine ⟨?_, Or.inl ?_⟩
        · simp only [handleApiError, handleApiErrorSpec, hr, optChain_eq_spec]
          rfl
        · simp only [handleApiError, hr, optChain_eq_spec]
          rfl
    | none =>
      cases hq : fs.lookup ("request") with
      | some v =>
        refine ⟨?_, Or.inl ?_⟩
        · simp only [handleApiError, handleApiErrorSpec, hr, hq]
          rfl
        · simp only [handleApiError, hr, hq]
          rfl
      | none =>
        cases isErr with
        | true =>
          refine ⟨?_, Or.inl ?_⟩
          · simp only [handleApiError, handleApiErrorSpec, hr, hq]
            rfl
          · simp only [handleApiError, hr, hq]
            rfl
        | false =>
          refine ⟨?_, Or.inl ?_⟩
          · simp only [handleApiError, handleApiErrorSpec, hr, hq]
            rfl
          · simp only [handleApiError, hr, hq]
            rfl

end Aurum
